import Mathlib

/-!
Verification of the MoneyBird backend pipeline (src/backend of Danh295/MoneyBird).

This file gives a shallow embedding of the pipeline code:

* `JValue` models the dynamically-typed JSON-like Python values the agents pass
  around (`Dict[str, Any]`, lists, strings, ints, bools, `None`).
* Agent coroutines from `agents.py` (`run_intake_agent`, `run_financial_agent`,
  `run_synthesizer_agent`, `run_action_generator`) become functions in the
  `Except String` monad: `Except.error` models an uncaught Python exception,
  and the `try`/`except` blocks of the source become `match` on the embedded
  try-body.  The external Gemini call (`client.models.generate_content`) is an
  oracle parameter of type `CapResult`; the Python standard-library JSON
  decoding used inside `safe_parse_json` (the two `re.sub` fence strippers
  composed with `json.loads`) is an oracle parameter
  `parse : String → Option JValue` (`none` models `json.JSONDecodeError`).
* The LangGraph `StateGraph` built in `workflow.py` (`create_graph`,
  `run_mindmoney_workflow`) is embedded together with the relevant fragment of
  LangGraph's documented execution semantics: `set_entry_point k` is
  `add_edge START k`, edges form a set, nodes whose incoming edge source ran
  in the previous superstep all run in the next superstep on the same state
  snapshot, and each state key of the `MindMoneyState` TypedDict (which has no
  `Annotated` reducer on any field, see `schemas.py`) is a `LastValue`
  channel: it accepts at most one write per superstep and raises
  `InvalidUpdateError` on two concurrent writes.

Numbers are modelled as `Int` (the scores and lengths manipulated by the code
are integers).  Python `str()` / `repr()` rendering of values and
`json.dumps` serialisation are implemented by simple renderers below; they
feed only prompt/log strings, never control flow.
-/

namespace MoneyBird

/-- A dynamically-typed Python/JSON value as handled by the agents. -/
inductive JValue where
  | null : JValue
  | bool : Bool → JValue
  | num : Int → JValue
  | str : String → JValue
  | arr : List JValue → JValue
  | obj : List (String × JValue) → JValue
  deriving Repr

mutual

/-- Structural equality test on values (Python `==`, as used by `set()`). -/
def jbeq : JValue → JValue → Bool
  | .null, .null => true
  | .bool a, .bool b => a == b
  | .num a, .num b => a == b
  | .str a, .str b => a == b
  | .arr xs, .arr ys => jbeqList xs ys
  | .obj xs, .obj ys => jbeqFields xs ys
  | _, _ => false

/-- Pointwise equality of value lists. -/
def jbeqList : List JValue → List JValue → Bool
  | [], [] => true
  | x :: xs, y :: ys => jbeq x y && jbeqList xs ys
  | _, _ => false

/-- Pointwise equality of dict item lists. -/
def jbeqFields : List (String × JValue) → List (String × JValue) → Bool
  | [], [] => true
  | (k, v) :: xs, (l, w) :: ys => k == l && jbeq v w && jbeqFields xs ys
  | _, _ => false

end

instance : BEq JValue := ⟨jbeq⟩

/-- First binding of a key in an association list (Python dict lookup). -/
def lookupField : List (String × JValue) → String → Option JValue
  | [], _ => none
  | (k, v) :: rest, key => if k = key then some v else lookupField rest key

/-- Python truthiness (`bool(v)`): `None`, `False`, `0`, `""`, `[]`, `{}` are falsy. -/
def truthy : JValue → Bool
  | .null => false
  | .bool b => b
  | .num n => n != 0
  | .str s => s ≠ ""
  | .arr xs => ¬ xs.isEmpty
  | .obj fs => ¬ fs.isEmpty

/-- Python `d.get(key, default)`; raises `AttributeError` when `d` is not a dict. -/
def pyGet (v : JValue) (key : String) (dflt : JValue) : Except String JValue :=
  match v with
  | .obj fs => .ok ((lookupField fs key).getD dflt)
  | _ => .error "AttributeError: object has no attribute get"

/-- Python `len(v)` for strings, lists and dicts; `TypeError` otherwise. -/
def pyLen (v : JValue) : Except String Nat :=
  match v with
  | .str s => .ok s.length
  | .arr xs => .ok xs.length
  | .obj fs => .ok fs.length
  | _ => .error "TypeError: object has no len"

/-- Require a Python `str` value (operations such as `.upper()` or `.strip()`). -/
def asStr (v : JValue) : Except String String :=
  match v with
  | .str s => .ok s
  | _ => .error "TypeError: expected str"

/-- Python equality of a value against a string literal (`v == "lit"`):
false, with no exception, when `v` is not a string. -/
def eqStr (v : JValue) (s : String) : Bool :=
  match v with
  | .str t => t == s
  | _ => false

/-- Python numeric comparison `v >= n`; `bool` counts as `int`; `TypeError`
on non-numeric values. -/
def pyGe (v : JValue) (n : Int) : Except String Bool :=
  match v with
  | .num m => .ok (n ≤ m)
  | .bool b => .ok (n ≤ (if b then (1 : Int) else 0))
  | _ => .error "TypeError: comparison not supported"

/-- Python slice `v[:n]` for strings and lists; `TypeError` otherwise. -/
def pySliceTake (v : JValue) (n : Nat) : Except String JValue :=
  match v with
  | .str s => .ok (.str (s.take n))
  | .arr xs => .ok (.arr (xs.take n))
  | _ => .error "TypeError: object is not subscriptable"

/-- Python slice `xs[-n:]` (last `n` elements). -/
def takeLast (xs : List JValue) (n : Nat) : List JValue :=
  xs.drop (xs.length - n)

mutual

/-- Python `repr(v)` rendering, used inside container rendering. -/
def pyRepr : JValue → String
  | .null => "None"
  | .bool b => if b then "True" else "False"
  | .num n => toString n
  | .str s => "'" ++ s ++ "'"
  | .arr xs => "[" ++ pyReprList xs ++ "]"
  | .obj fs => "\x7b" ++ pyReprFields fs ++ "\x7d"

/-- Comma-joined reprs of list elements. -/
def pyReprList : List JValue → String
  | [] => ""
  | [x] => pyRepr x
  | x :: rest => pyRepr x ++ ", " ++ pyReprList rest

/-- Comma-joined reprs of dict items. -/
def pyReprFields : List (String × JValue) → String
  | [] => ""
  | [(k, v)] => "'" ++ k ++ "': " ++ pyRepr v
  | (k, v) :: rest => "'" ++ k ++ "': " ++ pyRepr v ++ ", " ++ pyReprFields rest

end

/-- Python `str(v)` as used by f-string interpolation. -/
def pyStr (v : JValue) : String :=
  match v with
  | .str s => s
  | _ => pyRepr v

mutual

/-- Rendering modelling `json.dumps(v)`.  The exact layout (indentation) is
immaterial: dumped text only ever feeds the generation oracle's prompt. -/
def jsonDumps : JValue → String
  | .null => "null"
  | .bool b => if b then "true" else "false"
  | .num n => toString n
  | .str s => "\"" ++ s ++ "\""
  | .arr xs => "[" ++ jsonDumpsList xs ++ "]"
  | .obj fs => "\x7b" ++ jsonDumpsFields fs ++ "\x7d"

/-- Comma-joined dumps of list elements. -/
def jsonDumpsList : List JValue → String
  | [] => ""
  | [x] => jsonDumps x
  | x :: rest => jsonDumps x ++ ", " ++ jsonDumpsList rest

/-- Comma-joined dumps of dict items. -/
def jsonDumpsFields : List (String × JValue) → String
  | [] => ""
  | [(k, v)] => "\"" ++ k ++ "\": " ++ jsonDumps v
  | (k, v) :: rest => "\"" ++ k ++ "\": " ++ jsonDumps v ++ ", " ++ jsonDumpsFields rest

end

/-- Python `sep.join(v)`: succeeds on a list of strings (and on a string,
joining its characters); `TypeError` otherwise. -/
def pyJoin (sep : String) (v : JValue) : Except String String :=
  match v with
  | .arr xs => do
      let parts ← xs.mapM asStr
      pure (String.intercalate sep parts)
  | .str s => .ok (String.intercalate sep (s.toList.map (fun c => String.mk [c])))
  | _ => .error "TypeError: can only join strings"

/-- Python `list(d.keys())`; `AttributeError` on non-dicts. -/
def pyKeys (v : JValue) : Except String (List JValue) :=
  match v with
  | .obj fs => .ok (fs.map (fun p => .str p.1))
  | _ => .error "AttributeError: object has no attribute keys"

/-- The mutable LangGraph state dict (`MindMoneyState` values at runtime). -/
abbrev StateMap := List (String × JValue)

/-- Partial state update returned by a LangGraph node. -/
abbrev Update := List (String × JValue)

/-- Python `state.get(key, default)` on the state dict. -/
def stateGetD (s : StateMap) (k : String) (dflt : JValue) : JValue :=
  (lookupField s k).getD dflt

/-- Python `state.get(key)` (default `None`). -/
def stateGet (s : StateMap) (k : String) : JValue :=
  stateGetD s k .null

/-- Python `state[key]`; raises `KeyError` when absent. -/
def stateIndex (s : StateMap) (k : String) : Except String JValue :=
  match lookupField s k with
  | some v => .ok v
  | none => .error "KeyError"

/-- Outcome of one `client.models.generate_content` call: either the response
(whose `.text` is `Optional[str]`), or a raised exception with its message. -/
inductive CapResult where
  | ok (text : Option String)
  | err (msg : String)

/-- Text of a capability call inside a `try` block: re-raises the exception. -/
def capText : CapResult → Except String (Option String)
  | .ok t => .ok t
  | .err m => .error m

/-- Function `safe_parse_json` from `agents.py`.  The `parse` oracle models
the composition of the two `re.sub` code-fence strippers with `json.loads`
from the Python standard library (external to this repository): `parse t`
is `some v` when stripping fences from `t` and JSON-decoding the rest yields
`v`, and `none` when `json.loads` raises `JSONDecodeError`.  The source
returns `\x7b\x7d` when `response_text` is falsy (`None` or `""`) and on any
decode error. -/
def safe_parse_json (parse : String → Option JValue) (response_text : Option String) : JValue :=
  match response_text with
  | none => .obj []
  | some t =>
      if t = "" then .obj []
      else
        match parse t with
        | some v => v
        | none => .obj []

/-- One line of the conversation context built by the agents:
Python `f"\x7bmsg.get('role', 'user').upper()\x7d: \x7bmsg.get('content', '')\x7d"`. -/
def renderHistoryMsg (msg : JValue) : Except String String := do
  let role ← pyGet msg "role" (.str "user")
  let roleS ← asStr role
  let content ← pyGet msg "content" (.str "")
  pure (roleS.toUpper ++ ": " ++ pyStr content)

/-- The `history_context` string the intake agent (window 4) and the financial
agent (window 3) build from `state.get("conversation_history")` before their
`try` blocks.  Iterating a truthy non-list raises, as indexing a char with
`.get` does in Python. -/
def buildHistoryContext (state : StateMap) (window : Nat) : Except String String := do
  if truthy (stateGet state "conversation_history") then
    match stateGet state "conversation_history" with
    | .arr msgs => do
        let rendered ← (takeLast msgs window).mapM renderHistoryMsg
        pure (String.intercalate "\n" rendered)
    | _ => .error "TypeError: conversation history entries are not dicts"
  else
    pure ""

/-- The `messages`/`context` string both the intake and the financial agent
build: the history context joined with the current message when a history
exists, else the raw user input (rendered only into the oracle prompt). -/
def mkContext (state : StateMap) (hc : String) (sep : String) : Except String String :=
  if hc ≠ "" then do
    let ui ← stateIndex state "user_input"
    pure (hc ++ sep ++ pyStr ui)
  else do
    let ui ← stateIndex state "user_input"
    pure (pyStr ui)

/-- Python `missing_info[:2] if missing_info else []` from the intake agent. -/
def sliceOrEmpty (mi : JValue) : Except String JValue :=
  if truthy mi then pySliceTake mi 2 else pure (.arr [])

/-- The conditional tail of the intake agent's `thought` f-string. -/
def intakeThoughtTail (mi intent : JValue) : Except String String :=
  if truthy mi then do
    let s ← pySliceTake mi 2
    pure ("Missing: " ++ pyStr s)
  else
    pure (if eqStr intent "DATA_SUBMISSION" then "Has sufficient data." else "")

/-- The `input_state` dict built at the top of `run_intake_agent`
(agents.py lines 97-102). -/
def intakeInputState (state : StateMap) : Except String JValue := do
  let ui ← stateIndex state "user_input"
  let uiLen ← pyLen ui
  let uiVal ←
    if uiLen > 100 then do
      let s ← asStr ui
      pure (JValue.str (s.take 100 ++ "..."))
    else
      pure ui
  let histLen ← pyLen (stateGetD state "conversation_history" (.arr []))
  pure (.obj [
    ("user_input", uiVal),
    ("history_length", .num (Int.ofNat histLen)),
    ("existing_intake_profile", .bool (truthy (stateGet state "intake_profile"))),
    ("existing_financial_profile", .bool (truthy (stateGet state "financial_profile")))])

/-- Body of the `try` block of `run_intake_agent` (agents.py lines 112-162).
The prompt text `INTAKE_PROMPT` is inert data consumed only by the generation
oracle, so only the state accesses that can raise are retained from the
`messages` construction. -/
def intakeTry (parse : String → Option JValue) (cap : CapResult) (state : StateMap)
    (input_state : JValue) (history_context : String) : Except String Update := do
  let _messages ← mkContext state history_context "\nCURRENT MESSAGE:\n"
  let text ← capText cap
  let data := safe_parse_json parse text
  let intent ← pyGet data "intent" (.str "GREETING")
  let emotions ← pyGet data "emotional_state" (.obj [])
  let primary_emotion ← pyGet emotions "primary_emotion" (.str "neutral")
  let anxiety ← pyGet emotions "anxiety" (.num 0)
  let shame ← pyGet emotions "shame" (.num 0)
  let safety ← pyGet data "safety_concerns" (.obj [])
  let missing_info ← pyGet data "missing_info" (.arr [])
  let crisis ← pyGet safety "crisis_flag" (.bool false)
  let missingSliced ← sliceOrEmpty missing_info
  let routing := if eqStr intent "DATA_SUBMISSION" then
      "→ Wealth Architect + Market Researcher"
    else
      "→ Care Manager (skip analysis)"
  let output_state : JValue := .obj [
    ("intent", intent),
    ("anxiety_score", anxiety),
    ("shame_score", shame),
    ("primary_emotion", primary_emotion),
    ("crisis_flag", crisis),
    ("missing_info", missingSliced),
    ("routing_decision", .str routing)]
  let thoughtTail ← intakeThoughtTail missing_info intent
  let thought := "Classified as " ++ pyStr intent ++ ". User feels " ++ pyStr primary_emotion ++
    " (anxiety: " ++ pyStr anxiety ++ "/10, shame: " ++ pyStr shame ++ "/10). " ++ thoughtTail
  let log : JValue := .obj [
    ("agent", .str "Intake Specialist"),
    ("role", .str "Emotional Assessment & Intent Classification"),
    ("thought", .str thought),
    ("status", .str "complete"),
    ("input_state", input_state),
    ("output_state", output_state),
    ("state_changes", .obj [
      ("added", .arr [.str "intake_profile.intent", .str "intake_profile.emotional_state",
                      .str "intake_profile.safety_concerns"]),
      ("routing", .str routing)])]
  pure [("intake_profile", data), ("agent_log", .arr [log])]

/-- The `except Exception` fallback of `run_intake_agent`
(agents.py lines 164-177). -/
def intakeFallback (e : String) (input_state : JValue) : Update :=
  [("intake_profile", .obj [("intent", .str "GREETING"), ("error", .str e)]),
   ("agent_log", .arr [.obj [
     ("agent", .str "Intake Specialist"),
     ("role", .str "Emotional Assessment & Intent Classification"),
     ("thought", .str ("Error during analysis: " ++ e.take 50)),
     ("status", .str "failed"),
     ("input_state", input_state),
     ("output_state", .obj [("error", .str (e.take 100))]),
     ("state_changes", .obj [("added", .arr []),
                             ("routing", .str "→ Care Manager (fallback)")])]])]

/-- AGENT 1 `run_intake_agent` from agents.py: builds `input_state` and the
history context, then runs the `try` body; any exception raised inside the
`try` block (a failed capability call, or an `AttributeError` from a
non-dict parse result) is recovered by the fallback update. -/
def run_intake_agent (parse : String → Option JValue) (cap : CapResult) (state : StateMap) :
    Except String Update := do
  let input_state ← intakeInputState state
  let history_context ← buildHistoryContext state 4
  match intakeTry parse cap state input_state history_context with
  | .ok u => pure u
  | .error e => pure (intakeFallback e input_state)

/-- The `input_state` dict built at the top of `run_financial_agent`
(agents.py lines 240-245). -/
def financialInputState (state : StateMap) (intake intent : JValue) : Except String JValue := do
  let emo ← pyGet intake "emotional_state" (.obj [])
  let anx ← pyGet emo "anxiety" (.num 0)
  let ui ← stateIndex state "user_input"
  let uiLen ← pyLen ui
  let preview ←
    if uiLen > 80 then do
      let s ← asStr ui
      pure (JValue.str (s.take 80 ++ "..."))
    else
      pure ui
  pure (.obj [
    ("received_from", .str "Intake Specialist"),
    ("intent", intent),
    ("anxiety_level", anx),
    ("user_input_preview", preview)])

/-- The skip update of `run_financial_agent` when the intent is not
`DATA_SUBMISSION` (agents.py lines 248-260). -/
def financialSkip (intent : JValue) (input_state : JValue) : Update :=
  [("financial_profile", .obj []),
   ("agent_log", .arr [.obj [
     ("agent", .str "Wealth Architect"),
     ("role", .str "Financial Analysis & Strategy"),
     ("thought", .str ("Skipped - Intent is '" ++ pyStr intent ++
       "', not DATA_SUBMISSION. Waiting for user to provide financial details.")),
     ("status", .str "idle"),
     ("input_state", input_state),
     ("output_state", .obj [("skipped", .bool true),
                            ("reason", .str "No financial data provided")]),
     ("state_changes", .obj [("added", .arr []),
                             ("routing", .str "→ Passed to Care Manager")])]])]

/-- Body of the `try` block of `run_financial_agent` (agents.py lines 275-320). -/
def financialTry (parse : String → Option JValue) (cap : CapResult)
    (input_state : JValue) : Except String Update := do
  let text ← capText cap
  let data := safe_parse_json parse text
  let health_score ← pyGet data "financial_health_score" (.num 0)
  let debtA1 ← pyGet data "debt_analysis" (.obj [])
  let total_debt ← pyGet debtA1 "total_debt" (.str "Unknown")
  let debtA2 ← pyGet data "debt_analysis" (.obj [])
  let debt_types ← pyGet debtA2 "debt_types" (.arr [])
  let challenges ← pyGet data "major_challenges" (.arr [])
  let debtA3 ← pyGet data "debt_analysis" (.obj [])
  let strategy ← pyGet debtA3 "recommended_strategy" (.str "Unknown")
  let dtCount ← pyLen debt_types
  let chCount ← pyLen challenges
  let detailed ← pyGet data "detailed_strategy" (.obj [])
  let phases ← pyKeys detailed
  let output_state : JValue := .obj [
    ("health_score", health_score),
    ("total_debt", total_debt),
    ("debt_types_count", .num (Int.ofNat dtCount)),
    ("challenges_identified", .num (Int.ofNat chCount)),
    ("recommended_strategy", strategy),
    ("phases_generated", .arr phases)]
  let thought := "Health Score: " ++ pyStr health_score ++ "/100 | Total Debt: " ++
    pyStr total_debt ++ " | Strategy: " ++ pyStr strategy ++ " | Found " ++
    toString chCount ++ " challenges, " ++ toString dtCount ++ " debt types"
  let log : JValue := .obj [
    ("agent", .str "Wealth Architect"),
    ("role", .str "Financial Analysis & Strategy"),
    ("thought", .str thought),
    ("status", .str "complete"),
    ("input_state", input_state),
    ("output_state", output_state),
    ("state_changes", .obj [
      ("added", .arr [.str "financial_profile.health_score",
                      .str "financial_profile.debt_analysis",
                      .str "financial_profile.detailed_strategy"]),
      ("routing", .str "→ Care Manager (with financial context)")])]
  pure [("financial_profile", data), ("agent_log", .arr [log])]

/-- The `except Exception` fallback of `run_financial_agent`
(agents.py lines 322-335). -/
def financialFallback (e : String) (input_state : JValue) : Update :=
  [("financial_profile", .obj [("error", .str e)]),
   ("agent_log", .arr [.obj [
     ("agent", .str "Wealth Architect"),
     ("role", .str "Financial Analysis & Strategy"),
     ("thought", .str ("Error during analysis: " ++ e.take 50)),
     ("status", .str "failed"),
     ("input_state", input_state),
     ("output_state", .obj [("error", .str (e.take 100))]),
     ("state_changes", .obj [("added", .arr []),
                             ("routing", .str "→ Care Manager (without financial data)")])]])]

/-- AGENT 2 `run_financial_agent` from agents.py: reads the intent from
`state.get("intake_profile", \x7b\x7d)`, returns the skip update unless the
intent equals `DATA_SUBMISSION`, and otherwise runs the capability call with
the usual fallback.  The prompt text `WEALTH_PROMPT` is inert oracle data;
the state accesses of the `context` construction are retained. -/
def run_financial_agent (parse : String → Option JValue) (cap : CapResult) (state : StateMap) :
    Except String Update := do
  let intake := stateGetD state "intake_profile" (.obj [])
  let intent ← pyGet intake "intent" (.str "GREETING")
  let input_state ← financialInputState state intake intent
  if ¬ (eqStr intent "DATA_SUBMISSION") then
    pure (financialSkip intent input_state)
  else do
    let history_context ← buildHistoryContext state 3
    let _context ← mkContext state history_context "\nCURRENT MESSAGE: "
    match financialTry parse cap input_state with
    | .ok u => pure u
    | .error e => pure (financialFallback e input_state)

/-- The style / style-reason pair the synthesizer's prompt-variant selection
computes (agents.py lines 425-480). -/
structure SynthSel where
  style : String
  style_reason : String

/-- The `input_state` dict built near the top of `run_synthesizer_agent`
(agents.py lines 416-423). -/
def synthInputState (wealth intent anxiety validation : JValue) : Except String JValue := do
  let vLen ← pyLen validation
  let vHook ←
    if vLen > 50 then do
      let s ← asStr validation
      pure (JValue.str (s.take 50 ++ "..."))
    else
      pure validation
  let hs ← if truthy wealth then pyGet wealth "financial_health_score" .null else pure .null
  pure (.obj [
    ("received_from",
      if truthy wealth then .arr [.str "Intake Specialist", .str "Wealth Architect"]
      else .arr [.str "Intake Specialist"]),
    ("intent", intent),
    ("anxiety_level", anxiety),
    ("has_financial_profile", .bool (truthy wealth)),
    ("health_score", hs),
    ("validation_hook", vHook)])

/-- The prompt-variant selection of `run_synthesizer_agent` (agents.py lines
425-480): `GREETING` and `CLARIFICATION` intents get their fixed styles; any
other intent falls into the `DATA_SUBMISSION` branch where the style is
chosen from `anxiety` alone (`>= 7` crisis, `>= 4` supportive, else
strategic).  The prompt templates are inert oracle data; the computations
that can raise (state indexing, joins, dict accesses on the financial
profile) are retained with their source order. -/
def synthSelect (state : StateMap) (intent anxiety primary_emotion validation missing_info wealth : JValue) :
    Except String SynthSel := do
  let _pe := pyStr primary_emotion ++ pyStr validation
  if eqStr intent "GREETING" then do
    let ui ← stateIndex state "user_input"
    let _context := "USER MESSAGE: " ++ pyStr ui
    pure ⟨"greeting", "User sent a greeting/inquiry"⟩
  else if eqStr intent "CLARIFICATION" then do
    let _mi ←
      if truthy missing_info then pyJoin ", " missing_info
      else pure "income and debt details"
    let ui ← stateIndex state "user_input"
    let _context := "USER MESSAGE: " ++ pyStr ui
    let reason ←
      if truthy missing_info then do
        let s ← pySliceTake missing_info 2
        let j ← pyJoin ", " s
        pure ("User needs to provide: " ++ j)
      else
        pure "User needs to provide: financial details"
    pure ⟨"clarification", reason⟩
  else do
    let _health_score ← pyGet wealth "financial_health_score" (.num 50)
    let challenges ← pyGet wealth "major_challenges" (.arr [])
    let opportunities ← pyGet wealth "immediate_opportunities" (.arr [])
    let strategy ← pyGet wealth "detailed_strategy" (.obj [])
    let sel ← do
      let hi ← pyGe anxiety 7
      if hi then do
        let _p1 ← pyGet strategy "phase_1_immediate" (.obj [])
        pure (SynthSel.mk "crisis_support"
          ("High anxiety (" ++ pyStr anxiety ++ "/10) - using calming approach"))
      else do
        let mid ← pyGe anxiety 4
        if mid then do
          let _ch ←
            if truthy challenges then do
              let s ← pySliceTake challenges 3
              pyJoin ", " s
            else
              pure "None identified"
          let _summary := (jsonDumps strategy).take 500
          pure (SynthSel.mk "supportive_guidance"
            ("Moderate anxiety (" ++ pyStr anxiety ++ "/10) - balanced approach"))
        else do
          let _dumps := jsonDumps challenges ++ jsonDumps opportunities ++ jsonDumps strategy
          pure (SynthSel.mk "strategic_optimization"
            ("Low anxiety (" ++ pyStr anxiety ++ "/10) - optimization focus"))
    let ui ← stateIndex state "user_input"
    let _context := "USER MESSAGE: " ++ pyStr ui ++ "\nFINANCIAL ANALYSIS: " ++
      (jsonDumps wealth).take 1000
    pure sel

/-- Body of the `try` block of `run_synthesizer_agent` (agents.py lines
482-519).  Note the response-text handling: a truthy text is stripped — so a
whitespace-only reply strips to the empty string — and only a falsy text
(`None` or `""`) is replaced by the built-in default sentence. -/
def synthTry (cap : CapResult) (style style_reason : String)
    (intent primary_emotion wealth input_state : JValue) : Except String Update := do
  let text ← capText cap
  let final_text :=
    match text with
    | some t =>
        if t ≠ "" then t.trim
        else "I'm here to help. Could you tell me more about your financial situation?"
    | none => "I'm here to help. Could you tell me more about your financial situation?"
  let output_state : JValue := .obj [
    ("response_style", .str style),
    ("style_reason", .str style_reason),
    ("response_length", .num (Int.ofNat final_text.length)),
    ("used_financial_data", .bool (truthy wealth && eqStr intent "DATA_SUBMISSION")),
    ("emotional_calibration",
      .str ("Matched " ++ pyStr primary_emotion ++ " with " ++ style ++ " approach"))]
  let thought := "Style: " ++ style ++ " | " ++ style_reason ++ ". Synthesized " ++
    toString final_text.length ++ " char response using " ++
    (if truthy wealth then "financial analysis + " else "") ++ "emotional profile."
  let log : JValue := .obj [
    ("agent", .str "Care Manager"),
    ("role", .str "Empathetic Response Synthesis"),
    ("thought", .str thought),
    ("status", .str "complete"),
    ("input_state", input_state),
    ("output_state", output_state),
    ("state_changes", .obj [
      ("added", .arr [.str "final_response"]),
      ("routing", .str (if eqStr intent "DATA_SUBMISSION" then "→ Action Generator"
                        else "→ END (conversational)"))])]
  pure [("final_response", .str final_text), ("agent_log", .arr [log])]

/-- The `except Exception` fallback of `run_synthesizer_agent`
(agents.py lines 521-534). -/
def synthFallback (e : String) (input_state : JValue) : Update :=
  [("final_response",
    .str "I'm here to help with your finances. Could you share what's on your mind?"),
   ("agent_log", .arr [.obj [
     ("agent", .str "Care Manager"),
     ("role", .str "Empathetic Response Synthesis"),
     ("thought", .str ("Error: " ++ e.take 50)),
     ("status", .str "failed"),
     ("input_state", input_state),
     ("output_state", .obj [("error", .str (e.take 100))]),
     ("state_changes", .obj [("added", .arr [.str "final_response (fallback)"]),
                             ("routing", .str "→ END")])]])]

/-- AGENT 3 `run_synthesizer_agent` from agents.py: note the `or \x7b\x7d`
coalescing on the two profiles, and that `safety_concerns`/`crisis_flag` is
never read anywhere in this function. -/
def run_synthesizer_agent (cap : CapResult) (state : StateMap) : Except String Update := do
  let intake :=
    if truthy (stateGet state "intake_profile") then stateGet state "intake_profile"
    else .obj []
  let wealth :=
    if truthy (stateGet state "financial_profile") then stateGet state "financial_profile"
    else .obj []
  let intent ← pyGet intake "intent" (.str "GREETING")
  let emotions ← pyGet intake "emotional_state" (.obj [])
  let anxiety ← pyGet emotions "anxiety" (.num 0)
  let primary_emotion ← pyGet emotions "primary_emotion" (.str "neutral")
  let validation ← pyGet intake "validation_hook" (.str "I hear you.")
  let missing_info ← pyGet intake "missing_info" (.arr [])
  let input_state ← synthInputState wealth intent anxiety validation
  let sel ← synthSelect state intent anxiety primary_emotion validation missing_info wealth
  match synthTry cap sel.style sel.style_reason intent primary_emotion wealth input_state with
  | .ok u => pure u
  | .error e => pure (synthFallback e input_state)

/-- Insertion-order deduplication modelling Python's `list(set(xs))` (set
iteration order is abstracted to first-occurrence order; nothing in the
claims depends on it). -/
def pyListSet (xs : List JValue) : List JValue :=
  xs.foldl (fun acc x => if acc.any (fun y => jbeq y x) then acc else acc ++ [x]) []

/-- The `input_state` dict built at the top of `run_action_generator`
(agents.py lines 580-587). -/
def actionInputState (wealth intent : JValue) : Except String JValue := do
  let hs ← if truthy wealth then pyGet wealth "financial_health_score" .null else pure .null
  let chCount ←
    if truthy wealth then do
      let ch ← pyGet wealth "major_challenges" (.arr [])
      let n ← pyLen ch
      pure (Int.ofNat n)
    else
      pure 0
  let phases ←
    if truthy wealth then do
      let ds ← pyGet wealth "detailed_strategy" (.obj [])
      pyKeys ds
    else
      pure []
  pure (.obj [
    ("received_from", .arr [.str "Wealth Architect", .str "Care Manager"]),
    ("intent", intent),
    ("has_financial_profile", .bool (truthy wealth)),
    ("health_score", hs),
    ("challenges_count", .num chCount),
    ("strategy_phases", .arr phases)])

/-- The skip update of `run_action_generator` when the intent is not
`DATA_SUBMISSION` (agents.py lines 590-602); `action_plan` is set to `None`. -/
def actionSkip (intent : JValue) (input_state : JValue) : Update :=
  [("action_plan", .null),
   ("agent_log", .arr [.obj [
     ("agent", .str "Action Generator"),
     ("role", .str "Actionable Plan Creation"),
     ("thought", .str ("Skipped - Intent is '" ++ pyStr intent ++
       "'. No action plan needed for conversational responses.")),
     ("status", .str "idle"),
     ("input_state", input_state),
     ("output_state", .obj [("skipped", .bool true),
                            ("reason", .str "Non-financial conversation")]),
     ("state_changes", .obj [("added", .arr []), ("routing", .str "→ END")])]])]

/-- Body of the `try` block of `run_action_generator`
(agents.py lines 620-663). -/
def actionTry (parse : String → Option JValue) (cap : CapResult)
    (input_state : JValue) : Except String Update := do
  let text ← capText cap
  let data := safe_parse_json parse text
  let actions1 ← pyGet data "immediate_actions" (.arr [])
  let numActions ← pyLen actions1
  let qw ← pyGet data "quick_wins" (.arr [])
  let quickWins ← pyLen qw
  let ms ← pyGet data "milestones" (.arr [])
  let milestones ← pyLen ms
  let mt ← pyGet data "metrics_to_track" (.arr [])
  let metrics ← pyLen mt
  let actions2 ← pyGet data "immediate_actions" (.arr [])
  let rawCats ←
    match actions2 with
    | .arr xs => xs.mapM (fun a => pyGet a "category" (.str "general"))
    | _ => .error "TypeError: object is not iterable"
  let categories := pyListSet rawCats
  let catJoin ← pyJoin ", " (.arr categories)
  let output_state : JValue := .obj [
    ("immediate_actions", .num (Int.ofNat numActions)),
    ("quick_wins", .num (Int.ofNat quickWins)),
    ("milestones", .num (Int.ofNat milestones)),
    ("metrics_to_track", .num (Int.ofNat metrics)),
    ("categories", .arr categories)]
  let thought := "Generated " ++ toString numActions ++ " actions, " ++ toString quickWins ++
    " quick wins, " ++ toString milestones ++ " milestones. Categories: " ++ catJoin
  let log : JValue := .obj [
    ("agent", .str "Action Generator"),
    ("role", .str "Actionable Plan Creation"),
    ("thought", .str thought),
    ("status", .str "complete"),
    ("input_state", input_state),
    ("output_state", output_state),
    ("state_changes", .obj [
      ("added", .arr [.str "action_plan.immediate_actions", .str "action_plan.quick_wins",
                      .str "action_plan.milestones", .str "action_plan.metrics"]),
      ("routing", .str "→ END (pipeline complete)")])]
  pure [("action_plan", data), ("agent_log", .arr [log])]

/-- The `except Exception` fallback of `run_action_generator`
(agents.py lines 665-678); `action_plan` is set to `None`. -/
def actionFallback (e : String) (input_state : JValue) : Update :=
  [("action_plan", .null),
   ("agent_log", .arr [.obj [
     ("agent", .str "Action Generator"),
     ("role", .str "Actionable Plan Creation"),
     ("thought", .str ("Error: " ++ e.take 50)),
     ("status", .str "failed"),
     ("input_state", input_state),
     ("output_state", .obj [("error", .str (e.take 100))]),
     ("state_changes", .obj [("added", .arr []),
                             ("routing", .str "→ END (with error)")])]])]

/-- AGENT 4 `run_action_generator` from agents.py: the only gate is
`intent != "DATA_SUBMISSION"` — the emptiness of `financial_profile` is
never tested.  The `context` f-string built before the `try` block reads
four fields of the financial profile; those accesses are retained. -/
def run_action_generator (parse : String → Option JValue) (cap : CapResult) (state : StateMap) :
    Except String Update := do
  let intake := stateGetD state "intake_profile" (.obj [])
  let wealth := stateGetD state "financial_profile" (.obj [])
  let intent ← pyGet intake "intent" (.str "GREETING")
  let input_state ← actionInputState wealth intent
  if ¬ (eqStr intent "DATA_SUBMISSION") then
    pure (actionSkip intent input_state)
  else do
    let _hs ← pyGet wealth "financial_health_score" (.str "Unknown")
    let _ds ← pyGet wealth "detailed_strategy" (.obj [])
    let _ch ← pyGet wealth "major_challenges" (.arr [])
    let _op ← pyGet wealth "immediate_opportunities" (.arr [])
    match actionTry parse cap input_state with
    | .ok u => pure u
    | .error e => pure (actionFallback e input_state)

/-- A compiled LangGraph: named nodes and a set of directed edges.  In the
LangGraph version targeted by the source, `set_entry_point k` is
`add_edge START k` and edges are stored as a set, so the duplicated
`set_entry_point("intake_specialist")` and `add_edge("intake_specialist",
"care_manager")` calls of workflow.py collapse. -/
structure Graph where
  nodes : List (String × (StateMap → Except String Update))
  edges : List (String × String)

/-- LangGraph's `START` sentinel. -/
def startNode : String := "__start__"

/-- LangGraph's `END` sentinel. -/
def endNode : String := "__end__"

/-- Function `create_graph` from workflow.py.  Nodes: the three agents added
with `add_node`.  Edges in first-insertion order after set-deduplication of
the calls on lines 22-23 and 34-42: `START → intake_specialist`,
`intake_specialist → care_manager`, `START → wealth_architect`,
`wealth_architect → care_manager`, `care_manager → END`.  Both
`intake_specialist` and `wealth_architect` are entry points. -/
def create_graph (parse : String → Option JValue) (capIntake capWealth capCare : CapResult) :
    Graph :=
  { nodes := [
      ("intake_specialist", run_intake_agent parse capIntake),
      ("wealth_architect", run_financial_agent parse capWealth),
      ("care_manager", run_synthesizer_agent capCare)],
    edges := [
      (startNode, "intake_specialist"),
      ("intake_specialist", "care_manager"),
      (startNode, "wealth_architect"),
      ("wealth_architect", "care_manager"),
      ("care_manager", endNode)] }

/-- The keys of the `MindMoneyState` TypedDict (schemas.py lines 112-124).
None of them carries an `Annotated` reducer, so every one is a LastValue
channel in LangGraph. -/
def schemaKeys : List String :=
  ["session_id", "turn_number", "user_input", "conversation_history", "intake_profile",
   "financial_profile", "plan_draft", "strategy_decision", "final_response", "agent_log",
   "errors"]

/-- Overwrite (or add) one key of the state dict. -/
def setKey : StateMap → String → JValue → StateMap
  | [], k, v => [(k, v)]
  | (k', v') :: rest, k, v => if k' = k then (k, v) :: rest else (k', v') :: setKey rest k v

/-- All values written to channel `k` during one superstep. -/
def valuesFor (writes : Update) (k : String) : List JValue :=
  (writes.filter (fun p => p.1 = k)).map Prod.snd

/-- LangGraph's end-of-superstep channel update.  Every key of
`MindMoneyState` is a LastValue channel: zero writes leave it unchanged, one
write replaces the value, and two or more concurrent writes raise
`InvalidUpdateError` ("Can receive only one value per step.  Use an
Annotated key to handle multiple values."). -/
def applyWrites (s : StateMap) (writes : Update) : Except String StateMap :=
  if writes.all (fun p => schemaKeys.contains p.1) then
    schemaKeys.foldlM (fun acc k =>
      match valuesFor writes k with
      | [] => .ok acc
      | [v] => .ok (setKey acc k v)
      | _ => .error ("InvalidUpdateError: At key " ++ k ++
          ": Can receive only one value per step."))
      s
  else
    .error "InvalidUpdateError: unknown channel"

/-- Nodes triggered for the next superstep: targets of edges out of the nodes
that just ran, `END` excluded, deduplicated (a node with several completed
predecessors in the same superstep runs once). -/
def successors (edges : List (String × String)) (ns : List String) : List String :=
  (((edges.filter (fun e => ns.contains e.1)).map Prod.snd).filter
    (fun t => t ≠ endNode)).eraseDups

/-- Look up a node function by name. -/
def findNode (g : Graph) (n : String) : Except String (StateMap → Except String Update) :=
  match g.nodes.find? (fun p => p.1 = n) with
  | some p => .ok p.2
  | none => .error "unknown node"

/-- Run every active node of a superstep on the same state snapshot and
collect their partial updates; a node's uncaught exception propagates. -/
def gatherWrites (g : Graph) (s : StateMap) (names : List String) : Except String Update :=
  names.foldlM (fun acc n => do
    let f ← findNode g n
    let u ← f s
    pure (acc ++ u)) []

/-- Pregel supersteps with fuel (LangGraph's `recursion_limit`). -/
def runSteps (g : Graph) : Nat → StateMap → List String → Except String StateMap
  | 0, _, _ => .error "GraphRecursionError"
  | _ + 1, s, [] => .ok s
  | fuel + 1, s, active => do
      let ws ← gatherWrites g s active
      let s' ← applyWrites s ws
      runSteps g fuel s' (successors g.edges active)

/-- LangGraph `app_graph.ainvoke`: run supersteps from the entry nodes with
the default recursion limit of 25. -/
def ainvoke (g : Graph) (s : StateMap) : Except String StateMap :=
  runSteps g 25 s (successors g.edges [startNode])

/-- The initial state built by `run_mindmoney_workflow` (workflow.py lines
55-64): `MindMoneyState(user_input=..., conversation_history=history,
intake_profile=\x7b\x7d, financial_profile=\x7b\x7d, plan_draft=\x7b\x7d,
strategy_decision=\x7b\x7d, final_response="", agent_log=[])`. -/
def initialState (user_input : String) (history : List JValue) : StateMap :=
  [("user_input", .str user_input),
   ("conversation_history", .arr history),
   ("intake_profile", .obj []),
   ("financial_profile", .obj []),
   ("plan_draft", .obj []),
   ("strategy_decision", .obj []),
   ("final_response", .str ""),
   ("agent_log", .arr [])]

/-- Function `run_mindmoney_workflow` from workflow.py: build the blank
initial state and `ainvoke` the compiled graph on it. -/
def run_mindmoney_workflow (parse : String → Option JValue)
    (capIntake capWealth capCare : CapResult)
    (user_input : String) (history : List JValue) : Except String StateMap :=
  ainvoke (create_graph parse capIntake capWealth capCare) (initialState user_input history)

/-- Keys of a node's partial update, in order. -/
def updKeys (u : Update) : List String := u.map Prod.fst

/-- Value a node's partial update assigns to a key. -/
def updGet (u : Update) (k : String) : Option JValue := lookupField u k

/-- First trace entry of a node's partial update. -/
def firstLog (u : Update) : Option JValue :=
  match lookupField u "agent_log" with
  | some (.arr (e :: _)) => some e
  | _ => none

/-- Field of the first trace entry. -/
def logField (u : Update) (k : String) : Option JValue :=
  match firstLog u with
  | some (.obj fs) => lookupField fs k
  | _ => none

/-- Value of `status` in the first trace entry. -/
def logStatus (u : Update) : Option JValue := logField u "status"

/-- Field of `output_state` in the first trace entry. -/
def logOut (u : Update) (k : String) : Option JValue :=
  match logField u "output_state" with
  | some (.obj fs) => lookupField fs k
  | _ => none

/-- Field of `input_state` in the first trace entry. -/
def logInput (u : Update) (k : String) : Option JValue :=
  match logField u "input_state" with
  | some (.obj fs) => lookupField fs k
  | _ => none

/-- The response style the synthesizer records in its trace entry. -/
def styleOf (u : Update) : Option JValue := logOut u "response_style"

/-- Style selected by a synthesizer run (`none` when the run raises). -/
def synthStyle (cap : CapResult) (st : StateMap) : Option JValue :=
  match run_synthesizer_agent cap st with
  | .ok u => styleOf u
  | .error _ => none

/-- JSON-decode oracle that always fails: every reply is unparsable. -/
def parseNone : String → Option JValue := fun _ => none

/-- JSON-decode oracle mapping the reply text "INTAKE" to an intake profile
classifying the turn as `DATA_SUBMISSION`, everything else failing. -/
def parseIntakeData : String → Option JValue := fun t =>
  if t = "INTAKE" then some (.obj [("intent", .str "DATA_SUBMISSION")]) else none

/-- Concrete intake-call outcome: the model replies with the text "INTAKE",
which `parseIntakeData` decodes to a `DATA_SUBMISSION` intake profile. -/
def capIntakeC : CapResult := .ok (some "INTAKE")

/-- Concrete financial-call outcome (reply text "W"). -/
def capWealthC : CapResult := .ok (some "W")

/-- Concrete synthesis-call outcome (reply text "R"). -/
def capCareC : CapResult := .ok (some "R")

/-- The compiled graph at the concrete oracles above. -/
def graphC : Graph := create_graph parseIntakeData capIntakeC capWealthC capCareC

/-- Intake profile of the first trace entry of an update. -/
def profileIntent (u : Update) : Option JValue :=
  match updGet u "intake_profile" with
  | some (.obj fs) => lookupField fs "intent"
  | _ => none

/-- State for Scenario C of the spec: safety flag set, anxiety 3, intent
`DATA_SUBMISSION`. -/
def st2 : StateMap :=
  [("user_input", .str "x"),
   ("intake_profile", .obj [
     ("intent", .str "DATA_SUBMISSION"),
     ("emotional_state", .obj [("anxiety", .num 3)]),
     ("safety_concerns", .obj [("crisis_flag", .bool true)])])]

/-- Family of states with intent `DATA_SUBMISSION`, an arbitrary crisis flag
and an arbitrary integer anxiety score. -/
def st2fam (cf : Bool) (anx : Int) : StateMap :=
  [("user_input", .str "x"),
   ("intake_profile", .obj [
     ("intent", .str "DATA_SUBMISSION"),
     ("emotional_state", .obj [("anxiety", .num anx)]),
     ("safety_concerns", .obj [("crisis_flag", .bool cf)])])]

/-- State whose intake result lacks the `anxiety` field entirely. -/
def st6 : StateMap :=
  [("user_input", .str "x"),
   ("intake_profile", .obj [
     ("intent", .str "DATA_SUBMISSION"),
     ("emotional_state", .obj [])])]

/-- State with a `DATA_SUBMISSION` intent, used with an unparsable reply. -/
def stF : StateMap :=
  [("user_input", .str "msg"),
   ("intake_profile", .obj [("intent", .str "DATA_SUBMISSION")])]

/-- A fresh turn's initial state for the message "hi". -/
def stI : StateMap := initialState "hi" []

/-- State with a `DATA_SUBMISSION` intent whose financial result is the
explicit empty marker (Scenario D's post-failure shape). -/
def stA : StateMap :=
  [("user_input", .str "d"),
   ("intake_profile", .obj [("intent", .str "DATA_SUBMISSION")]),
   ("financial_profile", .obj [])]

/-- Family of states with a symbolic intake intent. -/
def c4state (intent : String) : StateMap :=
  [("user_input", .str "msg"),
   ("intake_profile", .obj [("intent", .str intent)])]

/-- JSON-decode oracle returning a small non-empty action plan. -/
def parse9 : String → Option JValue :=
  fun _ => some (.obj [("quick_wins", .arr [.str "w1"])])

/-- Financial result markers of Scenario D: the empty marker, or the
error-tagged marker left by a failed FinancialAnalysis call. -/
def wealth9 : Option String → JValue
  | none => .obj []
  | some m => .obj [("error", .str m)]

/-- Family of states over an intake intent and a financial failure marker. -/
def st9 (intent : String) (e : Option String) : StateMap :=
  [("user_input", .str "d"),
   ("intake_profile", .obj [("intent", .str intent)]),
   ("financial_profile", wealth9 e)]

/-- C1.  The claim says every turn's returned Turn Record has a non-empty
`final_response`.  The code cannot return a Turn Record at all: both entry
nodes (`intake_specialist` and `wealth_architect`) write `agent_log` in the
same first superstep, and `agent_log` is a plain LastValue channel in
`MindMoneyState` (no `Annotated` reducer), so LangGraph raises
`InvalidUpdateError` on every input.  This theorem evaluates
`run_mindmoney_workflow` at the failing input "I have $50k debt" with all
three capability calls succeeding. -/
theorem c1_pipeline_never_returns_record :
    run_mindmoney_workflow parseIntakeData capIntakeC capWealthC capCareC
      "I have $50k debt" [] =
      .error "InvalidUpdateError: At key agent_log: Can receive only one value per step." := by
  rfl

/-- C3.  The claim says Intake completes before the FinancialAnalysis gate is
evaluated.  In the compiled graph, `wealth_architect` is itself an entry
point, triggered by `START` in the same first superstep as
`intake_specialist`; it therefore reads the initial state's empty
`intake_profile`, gets the default intent `GREETING`, and skips — even
though Intake's own run of the very same turn classifies the message as
`DATA_SUBMISSION`. -/
theorem c3_gate_reads_empty_intake :
    successors graphC.edges [startNode] = ["intake_specialist", "wealth_architect"] ∧
    (run_financial_agent parseIntakeData capWealthC (initialState "I have $50k debt" [])).map
      (fun u => (logStatus u, updGet u "financial_profile")) =
      .ok (some (.str "idle"), some (.obj [])) ∧
    (run_intake_agent parseIntakeData capIntakeC (initialState "I have $50k debt" [])).map
      profileIntent = .ok (some (.str "DATA_SUBMISSION")) := by
  exact ⟨rfl, rfl, rfl⟩

/-- C5.  The claim says the trace merge rule is additive list concatenation so
no stage's entry overwrites another's.  In the first superstep the two entry
nodes produce two writes to `agent_log`; the channel for `agent_log` is a
LastValue channel (the TypedDict has no reducer annotation), which rejects
two writes in one step instead of concatenating them. -/
theorem c5_trace_merge_not_additive :
    (do
      let ws ← gatherWrites graphC (initialState "hello" []) (successors graphC.edges [startNode])
      pure ((ws.filter (fun p => p.1 = "agent_log")).length) : Except String Nat) = .ok 2 ∧
    (do
      let ws ← gatherWrites graphC (initialState "hello" []) (successors graphC.edges [startNode])
      applyWrites (initialState "hello" []) ws) =
      .error "InvalidUpdateError: At key agent_log: Can receive only one value per step." := by
  exact ⟨rfl, rfl⟩

/-- C2 counterexample.  An intake result with `crisis_flag = true` and
`anxiety = 3` (Scenario C): the synthesizer selects the
`strategic_optimization` variant, not the crisis-support variant — the
safety flag is never read by the style selection. -/
theorem c2_crisis_flag_ignored_cex :
    (do
      let intake ← stateIndex st2 "intake_profile"
      let safety ← pyGet intake "safety_concerns" (.obj [])
      pyGet safety "crisis_flag" (.bool false)) = .ok (.bool true) ∧
    synthStyle capCareC st2 = some (.str "strategic_optimization") ∧
    (synthStyle capCareC st2).map (fun v => eqStr v "crisis_support") = some false := by
  exact ⟨rfl, rfl, rfl⟩

/-- C6 counterexample.  An intake result with the `anxiety` field missing:
the synthesizer substitutes 0 (the `.get("anxiety", 0)` default), not the
neutral midpoint 5, and so selects the extreme low-anxiety
`strategic_optimization` variant rather than a middle-ground one. -/
theorem c6_missing_anxiety_defaults_zero_cex :
    (run_synthesizer_agent capCareC st6).map
      (fun u => (logInput u "anxiety_level", styleOf u)) =
      .ok (some (.num 0), some (.str "strategic_optimization")) ∧
    (synthStyle capCareC st6).map (fun v => eqStr v "supportive_guidance") = some false := by
  exact ⟨rfl, rfl⟩

/-- C4 counterexample.  A turn whose intent is `DATA_SUBMISSION` but whose
capability call returns unparsable text: `financial_profile` is set to the
empty dict while the trace entry says "complete" — so a populated
`financial_result` is not equivalent to intent being has-data. -/
theorem c4_unparsable_not_populated_cex :
    (pyGet (stateGetD stF "intake_profile" (.obj [])) "intent" (.str "GREETING")) =
      .ok (.str "DATA_SUBMISSION") ∧
    (run_financial_agent parseNone (.ok (some "garbage")) stF).map
      (fun u => (updGet u "financial_profile", logStatus u)) =
      .ok (some (.obj []), some (.str "complete")) := by
  exact ⟨rfl, rfl⟩

/-- C7 counterexample.  For the intake stage, an unparsable structured reply
produces intake_profile = empty dict with a "complete" trace entry, while a
capability failure produces an error-tagged profile with a "failed" trace
entry: two observably different outcomes, the former exactly the
"empty-but-complete" third behavior the claim rules out. -/
theorem c7_unparsable_distinct_cex :
    (run_intake_agent parseNone (.ok (some "not json")) stI).map
      (fun u => (logStatus u, updGet u "intake_profile")) =
      .ok (some (.str "complete"), some (.obj [])) ∧
    (run_intake_agent parseNone (.err "CapabilityError: timeout") stI).map
      (fun u => (logStatus u, updGet u "intake_profile")) =
      .ok (some (.str "failed"),
           some (.obj [("intent", .str "GREETING"),
                       ("error", .str "CapabilityError: timeout")])) ∧
    (run_intake_agent parseNone (.ok (some "not json")) stI).map
      (fun u => (logStatus u).map (fun v => eqStr v "failed")) = .ok (some false) := by
  exact ⟨rfl, rfl, rfl⟩

/-- C8 counterexample.  On a capability failure the intake fallback's intent
is `GREETING`, not the claimed needs-clarification; no entry is appended to
the `errors` field (the update's keys are exactly `intake_profile` and
`agent_log`); there are no neutral emotional scores or validation sentence
in the fallback profile. -/
theorem c8_fallback_intent_greeting_cex :
    (run_intake_agent parseNone (.err "CapabilityError: quota") stI).map
      (fun u => (updGet u "intake_profile", updKeys u, logStatus u)) =
      .ok (some (.obj [("intent", .str "GREETING"),
                       ("error", .str "CapabilityError: quota")]),
           ["intake_profile", "agent_log"], some (.str "failed")) ∧
    (run_intake_agent parseNone (.err "CapabilityError: quota") stI).map
      (fun u => (profileIntent u).map (fun v => eqStr v "CLARIFICATION")) =
      .ok (some false) ∧
    (run_intake_agent parseNone (.err "CapabilityError: quota") stI).map
      (fun u => (updKeys u).contains "errors") = .ok false := by
  exact ⟨rfl, rfl, rfl⟩

/-- C9 counterexample.  With intent `DATA_SUBMISSION` and `financial_profile`
equal to the explicit empty marker, `run_action_generator` does not skip: it
runs to a "complete" trace entry and writes a non-null action plan — its
only gate is the intent test. -/
theorem c9_runs_on_empty_financial_cex :
    stateGetD stA "financial_profile" (.obj []) = .obj [] ∧
    (run_action_generator parse9 (.ok (some "x")) stA).map
      (fun u => (logStatus u, updGet u "action_plan")) =
      .ok (some (.str "complete"), some (.obj [("quick_wins", .arr [.str "w1"])])) := by
  exact ⟨rfl, rfl⟩

/-- Destructuring of a successful `Except` bind. -/
theorem exceptBindOk {α β : Type} {e : Except String α} {f : α → Except String β} {b : β}
    (h : e >>= f = .ok b) : ∃ a, e = .ok a ∧ f a = .ok b := by
  cases e with
  | error m => simp [Bind.bind, Except.bind] at h
  | ok a => exact ⟨a, rfl, by simpa [Bind.bind, Except.bind] using h⟩

/-- Every successful run of the intake try-body writes exactly the keys
`intake_profile` and `agent_log`. -/
theorem intakeTry_keys {parse : String → Option JValue} {cap : CapResult} {state : StateMap}
    {input_state : JValue} {history_context : String} {u : Update}
    (h : intakeTry parse cap state input_state history_context = .ok u) :
    updKeys u = ["intake_profile", "agent_log"] := by
  unfold intakeTry at h
  obtain ⟨a1, -, h⟩ := exceptBindOk h
  obtain ⟨a2, -, h⟩ := exceptBindOk h
  obtain ⟨a3, -, h⟩ := exceptBindOk h
  obtain ⟨a4, -, h⟩ := exceptBindOk h
  obtain ⟨a5, -, h⟩ := exceptBindOk h
  obtain ⟨a6, -, h⟩ := exceptBindOk h
  obtain ⟨a7, -, h⟩ := exceptBindOk h
  obtain ⟨a8, -, h⟩ := exceptBindOk h
  obtain ⟨a9, -, h⟩ := exceptBindOk h
  obtain ⟨a10, -, h⟩ := exceptBindOk h
  obtain ⟨a11, -, h⟩ := exceptBindOk h
  obtain ⟨a12, -, h⟩ := exceptBindOk h
  cases h
  rfl

/-- Every successful run of `run_intake_agent` writes exactly the keys
`intake_profile` and `agent_log` (both on success and on fallback). -/
theorem run_intake_agent_keys {parse : String → Option JValue} {cap : CapResult}
    {state : StateMap} {u : Update}
    (h : run_intake_agent parse cap state = .ok u) :
    updKeys u = ["intake_profile", "agent_log"] := by
  unfold run_intake_agent at h
  obtain ⟨i1, -, h⟩ := exceptBindOk h
  obtain ⟨i2, -, h⟩ := exceptBindOk h
  cases htry : intakeTry parse cap state i1 i2 with
  | error e =>
      rw [htry] at h
      cases h
      rfl
  | ok u' =>
      rw [htry] at h
      cases h
      exact intakeTry_keys htry

/-- Every successful run of the financial try-body writes exactly the keys
`financial_profile` and `agent_log`. -/
theorem financialTry_keys {parse : String → Option JValue} {cap : CapResult}
    {input_state : JValue} {u : Update}
    (h : financialTry parse cap input_state = .ok u) :
    updKeys u = ["financial_profile", "agent_log"] := by
  unfold financialTry at h
  obtain ⟨a1, -, h⟩ := exceptBindOk h
  obtain ⟨a2, -, h⟩ := exceptBindOk h
  obtain ⟨a3, -, h⟩ := exceptBindOk h
  obtain ⟨a4, -, h⟩ := exceptBindOk h
  obtain ⟨a5, -, h⟩ := exceptBindOk h
  obtain ⟨a6, -, h⟩ := exceptBindOk h
  obtain ⟨a7, -, h⟩ := exceptBindOk h
  obtain ⟨a8, -, h⟩ := exceptBindOk h
  obtain ⟨a9, -, h⟩ := exceptBindOk h
  obtain ⟨a10, -, h⟩ := exceptBindOk h
  obtain ⟨a11, -, h⟩ := exceptBindOk h
  obtain ⟨a12, -, h⟩ := exceptBindOk h
  obtain ⟨a13, -, h⟩ := exceptBindOk h
  cases h
  rfl

/-- Every successful run of `run_financial_agent` writes exactly the keys
`financial_profile` and `agent_log` (skip, success and fallback paths). -/
theorem run_financial_agent_keys {parse : String → Option JValue} {cap : CapResult}
    {state : StateMap} {u : Update}
    (h : run_financial_agent parse cap state = .ok u) :
    updKeys u = ["financial_profile", "agent_log"] := by
  unfold run_financial_agent at h
  obtain ⟨i1, -, h⟩ := exceptBindOk h
  obtain ⟨i2, -, h⟩ := exceptBindOk h
  split at h
  · cases h
    rfl
  · obtain ⟨i3, -, h⟩ := exceptBindOk h
    obtain ⟨i4, -, h⟩ := exceptBindOk h
    cases htry : financialTry parse cap i2 with
    | error e =>
        rw [htry] at h
        cases h
        rfl
    | ok u' =>
        rw [htry] at h
        cases h
        exact financialTry_keys htry

/-- Every successful run of the synthesizer try-body writes exactly the keys
`final_response` and `agent_log`. -/
theorem synthTry_keys {cap : CapResult} {style style_reason : String}
    {intent primary_emotion wealth input_state : JValue} {u : Update}
    (h : synthTry cap style style_reason intent primary_emotion wealth input_state = .ok u) :
    updKeys u = ["final_response", "agent_log"] := by
  unfold synthTry at h
  obtain ⟨a1, -, h⟩ := exceptBindOk h
  cases h
  rfl

/-- Every successful run of `run_synthesizer_agent` writes exactly the keys
`final_response` and `agent_log` (success and fallback paths). -/
theorem run_synthesizer_agent_keys {cap : CapResult} {state : StateMap} {u : Update}
    (h : run_synthesizer_agent cap state = .ok u) :
    updKeys u = ["final_response", "agent_log"] := by
  unfold run_synthesizer_agent at h
  obtain ⟨i1, -, h⟩ := exceptBindOk h
  obtain ⟨i2, -, h⟩ := exceptBindOk h
  obtain ⟨i3, -, h⟩ := exceptBindOk h
  obtain ⟨i4, -, h⟩ := exceptBindOk h
  obtain ⟨i5, -, h⟩ := exceptBindOk h
  obtain ⟨i6, -, h⟩ := exceptBindOk h
  obtain ⟨i7, -, h⟩ := exceptBindOk h
  obtain ⟨i8, -, h⟩ := exceptBindOk h
  cases htry : synthTry cap i8.style i8.style_reason i1 i4 (if truthy (stateGet state "financial_profile") then stateGet state "financial_profile" else .obj []) i7 with
  | error e =>
      rw [htry] at h
      cases h
      rfl
  | ok u' =>
      rw [htry] at h
      cases h
      exact synthTry_keys htry

/-- C10.  The compiled graph schedules exactly the three stages
`intake_specialist`, `wealth_architect` and `care_manager`;
`run_action_generator` and `run_research_agent` are not nodes of the graph,
and every update any scheduled node can produce writes only its own result
key plus `agent_log` — in particular no execution ever writes `action_plan`
or `market_data`. -/
theorem c10_graph_three_stages :
    (∀ (parse : String → Option JValue) (capI capW capC : CapResult),
      (create_graph parse capI capW capC).nodes.map Prod.fst =
        ["intake_specialist", "wealth_architect", "care_manager"] ∧
      successors (create_graph parse capI capW capC).edges [startNode] =
        ["intake_specialist", "wealth_architect"]) ∧
    (∀ (parse : String → Option JValue) (cap : CapResult) (s : StateMap) (u : Update),
      run_intake_agent parse cap s = .ok u → updKeys u = ["intake_profile", "agent_log"]) ∧
    (∀ (parse : String → Option JValue) (cap : CapResult) (s : StateMap) (u : Update),
      run_financial_agent parse cap s = .ok u → updKeys u = ["financial_profile", "agent_log"]) ∧
    (∀ (cap : CapResult) (s : StateMap) (u : Update),
      run_synthesizer_agent cap s = .ok u → updKeys u = ["final_response", "agent_log"]) := by
  refine ⟨fun _ _ _ _ => ⟨rfl, rfl⟩, ?_, ?_, ?_⟩
  · exact fun _ _ _ _ h => run_intake_agent_keys h
  · exact fun _ _ _ _ h => run_financial_agent_keys h
  · exact fun _ _ _ h => run_synthesizer_agent_keys h

/-- C10 witness: the graph shape and the write-key property evaluated at the
concrete oracles `parseNone` / `capCareC` and the fresh state `stI`. -/
theorem c10_graph_three_stages_witness :
    (create_graph parseNone capCareC capCareC capCareC).nodes.map Prod.fst =
      ["intake_specialist", "wealth_architect", "care_manager"] ∧
    (run_intake_agent parseNone capCareC stI).map updKeys =
      .ok ["intake_profile", "agent_log"] ∧
    (run_financial_agent parseNone capCareC stI).map updKeys =
      .ok ["financial_profile", "agent_log"] ∧
    (run_synthesizer_agent capCareC stI).map updKeys =
      .ok ["final_response", "agent_log"] := by
  refine ⟨(c10_graph_three_stages.1 parseNone capCareC capCareC capCareC).1, ?_, ?_, ?_⟩
  · cases hrun : run_intake_agent parseNone capCareC stI with
    | error e =>
        have hc : (run_intake_agent parseNone capCareC stI).map updKeys =
            .ok ["intake_profile", "agent_log"] := rfl
        rw [hrun] at hc
        simp [Except.map] at hc
    | ok u =>
        simp only [Except.map]
        exact congrArg Except.ok (c10_graph_three_stages.2.1 parseNone capCareC stI u hrun)
  · cases hrun : run_financial_agent parseNone capCareC stI with
    | error e =>
        have hc : (run_financial_agent parseNone capCareC stI).map updKeys =
            .ok ["financial_profile", "agent_log"] := rfl
        rw [hrun] at hc
        simp [Except.map] at hc
    | ok u =>
        simp only [Except.map]
        exact congrArg Except.ok (c10_graph_three_stages.2.2.1 parseNone capCareC stI u hrun)
  · cases hrun : run_synthesizer_agent capCareC stI with
    | error e =>
        have hc : (run_synthesizer_agent capCareC stI).map updKeys =
            .ok ["final_response", "agent_log"] := rfl
        rw [hrun] at hc
        simp [Except.map] at hc
    | ok u =>
        simp only [Except.map]
        exact congrArg Except.ok (c10_graph_three_stages.2.2.2 capCareC stI u hrun)

/-- C2 amended.  The synthesizer's variant selection never reads the safety
flag: on a `DATA_SUBMISSION` intake result the crisis-support variant is
selected exactly when anxiety ≥ 7, and otherwise the anxiety thresholds
alone decide, whatever the crisis flag's value. -/
theorem c2_style_rule_amended (cf : Bool) (anx : Int) :
    synthStyle capCareC (st2fam cf anx) =
      some (.str (if 7 ≤ anx then "crisis_support"
                  else if 4 ≤ anx then "supportive_guidance"
                  else "strategic_optimization")) := by
  by_cases h7 : 7 ≤ anx
  · rw [if_pos h7]
    simp [synthStyle, run_synthesizer_agent, st2fam, synthInputState, synthSelect, synthTry,
      capCareC, capText, stateGet, stateGetD, lookupField, truthy, pyGet, pyLen, asStr, pyGe,
      eqStr, stateIndex, styleOf, logOut, logField, firstLog, updGet, h7,
      Bind.bind, Except.bind, pure, Except.pure]
    rfl
  · by_cases h4 : 4 ≤ anx
    · rw [if_neg h7, if_pos h4]
      simp [synthStyle, run_synthesizer_agent, st2fam, synthInputState, synthSelect, synthTry,
        capCareC, capText, stateGet, stateGetD, lookupField, truthy, pyGet, pyLen, asStr, pyGe,
        eqStr, stateIndex, styleOf, logOut, logField, firstLog, updGet, h7, h4,
        Bind.bind, Except.bind, pure, Except.pure]
      rfl
    · rw [if_neg h7, if_neg h4]
      simp [synthStyle, run_synthesizer_agent, st2fam, synthInputState, synthSelect, synthTry,
        capCareC, capText, stateGet, stateGetD, lookupField, truthy, pyGet, pyLen, asStr, pyGe,
        eqStr, stateIndex, styleOf, logOut, logField, firstLog, updGet, h7, h4,
        Bind.bind, Except.bind, pure, Except.pure]
      rfl

/-- C6 amended.  When the intake result has no `anxiety` field, the
synthesizer substitutes 0 (the `.get` default), records
`anxiety_level = 0` in its trace entry, and selects the low-anxiety
`strategic_optimization` variant — not a middle-ground one — whatever text
the synthesis call returns. -/
theorem c6_missing_anxiety_amended (t : String) :
    (run_synthesizer_agent (.ok (some t)) st6).map
      (fun u => (logInput u "anxiety_level", styleOf u)) =
      .ok (some (.num 0), some (.str "strategic_optimization")) := rfl

/-- C4 amended.  `run_financial_agent` writes the explicit empty marker and
an "idle" trace entry carrying a human-readable reason for every intent
other than `DATA_SUBMISSION` (this direction of the claim holds); but a
`DATA_SUBMISSION` intent does not guarantee a populated result: a failing
capability call leaves the error-tagged marker with a "failed" entry (and an
unparsable reply leaves the empty dict, see the counterexample). -/
theorem c4_gating_amended (parse : String → Option JValue) (cap : CapResult) (msg : String)
    (intent : String) (h : intent ≠ "DATA_SUBMISSION") :
    (run_financial_agent parse cap (c4state intent)).map
      (fun u => (updGet u "financial_profile", logStatus u, logOut u "skipped", logOut u "reason")) =
      .ok (some (.obj []), some (.str "idle"), some (.bool true),
           some (.str "No financial data provided")) ∧
    (run_financial_agent parse (.err msg) (c4state "DATA_SUBMISSION")).map
      (fun u => (updGet u "financial_profile", logStatus u)) =
      .ok (some (.obj [("error", .str msg)]), some (.str "failed")) := by
  constructor
  · simp [run_financial_agent, c4state, financialInputState, financialSkip, stateGetD, stateGet,
      lookupField, pyGet, pyLen, asStr, eqStr, truthy, stateIndex, updGet, logStatus, logOut,
      logField, firstLog, updKeys, h, Bind.bind, Except.bind, pure, Except.pure]
    rfl
  · rfl

/-- C4 witness: the amended theorem applied at intent `GREETING` with a
concrete failure message. -/
theorem c4_gating_amended_witness :
    ("GREETING" : String) ≠ "DATA_SUBMISSION" ∧
    ((run_financial_agent parseNone capCareC (c4state "GREETING")).map
      (fun u => (updGet u "financial_profile", logStatus u, logOut u "skipped", logOut u "reason")) =
      .ok (some (.obj []), some (.str "idle"), some (.bool true),
           some (.str "No financial data provided")) ∧
     (run_financial_agent parseNone (.err "CapabilityError: timeout") (c4state "DATA_SUBMISSION")).map
      (fun u => (updGet u "financial_profile", logStatus u)) =
      .ok (some (.obj [("error", .str "CapabilityError: timeout")]), some (.str "failed"))) :=
  ⟨by decide,
   c4_gating_amended parseNone capCareC "CapabilityError: timeout" "GREETING" (by decide)⟩

/-- C7 amended.  An unparsable structured reply is decoded to the empty dict
by `safe_parse_json` and the intake stage then completes normally: profile =
empty dict, trace entry status "complete" — a third observable behavior,
distinct from the capability-failure path, which yields the error-tagged
profile and a "failed" entry. -/
theorem c7_unparsable_amended (p : String → Option JValue) (t msg : String)
    (ht : t ≠ "") (hp : p t = none) :
    (run_intake_agent p (.ok (some t)) stI).map
      (fun u => (logStatus u, updGet u "intake_profile")) =
      .ok (some (.str "complete"), some (.obj [])) ∧
    (run_intake_agent p (.err msg) stI).map
      (fun u => (logStatus u, updGet u "intake_profile")) =
      .ok (some (.str "failed"),
           some (.obj [("intent", .str "GREETING"), ("error", .str msg)])) := by
  constructor
  · simp [run_intake_agent, intakeTry, intakeInputState, intakeFallback, mkContext,
      sliceOrEmpty, intakeThoughtTail, buildHistoryContext, safe_parse_json, stI, initialState,
      stateGet, stateGetD, stateIndex, lookupField, pyGet, pyLen, asStr, eqStr, truthy,
      capText, logStatus, logField, firstLog, updGet, ht, hp,
      Bind.bind, Except.bind, pure, Except.pure]
    rfl
  · rfl

/-- C7 witness: the amended theorem applied at the always-failing decoder
and the reply text "not json". -/
theorem c7_unparsable_amended_witness :
    ("not json" : String) ≠ "" ∧ parseNone "not json" = none ∧
    ((run_intake_agent parseNone (.ok (some "not json")) stI).map
      (fun u => (logStatus u, updGet u "intake_profile")) =
      .ok (some (.str "complete"), some (.obj [])) ∧
     (run_intake_agent parseNone (.err "CapabilityError: quota") stI).map
      (fun u => (logStatus u, updGet u "intake_profile")) =
      .ok (some (.str "failed"),
           some (.obj [("intent", .str "GREETING"), ("error", .str "CapabilityError: quota")]))) :=
  ⟨by decide, rfl,
   c7_unparsable_amended parseNone "not json" "CapabilityError: quota" (by decide) rfl⟩

/-- C8 amended.  On a capability failure the intake stage never propagates
the exception and appends a "failed" trace entry, but its deterministic
fallback profile is `\x7b"intent": "GREETING", "error": msg\x7d` — intent
`GREETING`, not needs-clarification, with no neutral emotional scores and no
validation sentence — and nothing is appended to the `errors` field. -/
theorem c8_failure_fallback_amended (p : String → Option JValue) (msg ui : String) :
    (run_intake_agent p (.err msg) (initialState ui [])).map
      (fun u => (updGet u "intake_profile", logStatus u, (updKeys u).contains "errors")) =
      .ok (some (.obj [("intent", .str "GREETING"), ("error", .str msg)]),
           some (.str "failed"), false) := by
  by_cases hl : (100 : Nat) < ui.length <;>
    simp [run_intake_agent, intakeTry, intakeInputState, intakeFallback, mkContext,
      sliceOrEmpty, intakeThoughtTail, buildHistoryContext, initialState,
      stateGet, stateGetD, stateIndex, lookupField, pyGet, pyLen, asStr, eqStr, truthy,
      capText, logStatus, logField, firstLog, updGet, updKeys, hl,
      Bind.bind, Except.bind, pure, Except.pure]
  all_goals rfl

/-- C9 amended.  `run_action_generator` gates on the intent alone: for a
`DATA_SUBMISSION` intent it runs and writes an action plan even when the
financial result is the explicit empty marker or the error-tagged marker
left by a failed FinancialAnalysis; for any other intent it skips with an
"idle" entry and `action_plan = None`. -/
theorem c9_intent_only_gate_amended (intent : String) (e : Option String) :
    (run_action_generator parse9 (.ok (some "x")) (st9 intent e)).map
      (fun u => (logStatus u, updGet u "action_plan")) =
      .ok (if intent = "DATA_SUBMISSION"
           then (some (.str "complete"), some (.obj [("quick_wins", .arr [.str "w1"])]))
           else (some (.str "idle"), some .null)) := by
  rcases e with _ | m <;> by_cases hi : intent = "DATA_SUBMISSION"
  · subst hi
    rw [if_pos rfl]
    rfl
  · rw [if_neg hi]
    simp [run_action_generator, st9, wealth9, actionInputState, actionSkip, stateGetD, stateGet,
      lookupField, pyGet, pyLen, pyKeys, asStr, eqStr, truthy, stateIndex, updGet, logStatus,
      logOut, logField, firstLog, hi, Bind.bind, Except.bind, pure, Except.pure]
    rfl
  · subst hi
    rw [if_pos rfl]
    rfl
  · rw [if_neg hi]
    simp [run_action_generator, st9, wealth9, actionInputState, actionSkip, stateGetD, stateGet,
      lookupField, pyGet, pyLen, pyKeys, asStr, eqStr, truthy, stateIndex, updGet, logStatus,
      logOut, logField, firstLog, hi, Bind.bind, Except.bind, pure, Except.pure]
    rfl

end MoneyBird
